import Mathlib

/-!
Shallow embedding of the pagination and multi-collection aggregation layer
of a Google Tasks MCP server (the helpers module, the task service module,
and the tool registrations of the server entry point).

Modelling conventions: JavaScript numbers that the code only ever uses as
array offsets are modelled as `Nat`/`Int`; a thrown `Error` is modelled
with `Except String`; an `undefined`-able field is an `Option`; JavaScript
string truthiness (`undefined`, `null` and `""` are falsy) is modelled
explicitly where the code relies on it.
-/

namespace GTasks

/-- Maximum number of results to request per Google Tasks API call
(helpers, `MAX_TASK_RESULTS`). -/
def MAX_TASK_RESULTS : Nat := 100

/-- Number of tasks returned per paginated response (helpers,
`TASK_PAGE_SIZE`). -/
def TASK_PAGE_SIZE : Nat := 20

/-- A task record (`Schema$Task`): every field the service layer reads or
prints.  Backend-defined fields pass through uninterpreted; the `links`
array is abstracted as the list of rendered link strings. -/
structure Task where
  title : Option String := none
  notes : Option String := none
  due : Option String := none
  id : Option String := none
  status : Option String := none
  selfLink : Option String := none
  hidden : Option Bool := none
  parent : Option String := none
  deleted : Option Bool := none
  completed : Option String := none
  position : Option String := none
  updated : Option String := none
  etag : Option String := none
  links : Option (List String) := none
  kind : Option String := none
  deriving DecidableEq, Repr

/-- JavaScript truthiness of a string-or-undefined value: `undefined`,
`null` and the empty string are falsy. -/
def jsTruthy : Option String → Bool
  | none => false
  | some s => !s.isEmpty

/-- Whitespace skipped by `Number.parseInt` before reading digits. -/
def jsIsWhitespace (c : Char) : Bool :=
  c = ' ' || c = '\t' || c = '\n' || c = '\r' || c = '\x0b' || c = '\x0c'

/-- Numeric value of a decimal digit character. -/
def digitVal (c : Char) : Nat := c.toNat - '0'.toNat

/-- Value of a string of decimal digits, most significant first. -/
def decValue (cs : List Char) : Nat :=
  cs.foldl (fun a c => a * 10 + digitVal c) 0

/-- Model of JavaScript `Number.parseInt(s, 10)`: skip leading whitespace,
read an optional sign, then the longest prefix of decimal digits; `none`
models the `NaN` result when no digit is found.  (Float precision loss on
astronomically long digit strings is not modelled; values are exact.) -/
def jsParseInt (s : String) : Option Int :=
  let cs := s.toList.dropWhile jsIsWhitespace
  let sign : Int := if cs.head? = some '-' then -1 else 1
  let rest := if cs.head? = some '-' || cs.head? = some '+' then cs.tail else cs
  let digits := rest.takeWhile Char.isDigit
  if digits.isEmpty then none
  else some (sign * Int.ofNat (decValue digits))

/-- The invalid-cursor error message thrown by the task service. -/
def invalidCursorMessage : String :=
  "Invalid cursor. Use the cursor returned by the previous call."

/-- Model of `TaskService.parseCursor`: a falsy cursor (absent or empty)
yields offset 0; otherwise the cursor is parsed with
`Number.parseInt(cursor, 10)` and rejected when the result is `NaN`
(`!Number.isInteger(offset)`) or negative. -/
def parseCursor (cursor : Option String) : Except String Nat :=
  match cursor with
  | none => Except.ok 0
  | some s =>
    if s.isEmpty then Except.ok 0
    else
      match jsParseInt s with
      | none => Except.error invalidCursorMessage
      | some i =>
        if i < 0 then Except.error invalidCursorMessage
        else Except.ok i.toNat

/-- Result record of `TaskService.paginateTasks`. -/
structure PageResult where
  page : List Task
  nextCursor : Option String
  offset : Nat
  total : Nat
  deriving DecidableEq, Repr

/-- Model of `TaskService.paginateTasks`: decode the cursor, reject an
offset past the end of a non-empty list, slice one page of
`TASK_PAGE_SIZE` items, and emit the next cursor (the decimal string of
the next offset) when more items remain. -/
def paginateTasks (tasks : List Task) (cursor : Option String) : Except String PageResult :=
  match parseCursor cursor with
  | Except.error e => Except.error e
  | Except.ok offset =>
    if 0 < tasks.length ∧ tasks.length ≤ offset then
      Except.error invalidCursorMessage
    else
      let page := (tasks.drop offset).take TASK_PAGE_SIZE
      let nextOffset := offset + page.length
      let nextCursor := if nextOffset < tasks.length then some (Nat.repr nextOffset) else none
      Except.ok { page := page, nextCursor := nextCursor, offset := offset, total := tasks.length }

/-- Rendering of a string-or-undefined field inside a JS template literal. -/
def jsShowOptString : Option String → String
  | none => "undefined"
  | some s => s

/-- Rendering of a boolean-or-undefined field inside a JS template literal. -/
def jsShowOptBool : Option Bool → String
  | none => "undefined"
  | some true => "true"
  | some false => "false"

/-- Rendering of an array-or-undefined field inside a JS template literal
(an array prints comma-joined). -/
def jsShowOptList : Option (List String) → String
  | none => "undefined"
  | some l => String.intercalate "," l

/-- Model of the JS `a || d` default for a string-or-undefined value. -/
def jsOrElse (o : Option String) (d : String) : String :=
  match o with
  | some s => if s.isEmpty then d else s
  | none => d

/-- Model of helpers `formatTask`: one task rendered with all its fields
(the stray closing brace at the end is in the source template). -/
def formatTask (task : Task) : String :=
  let title := jsShowOptString task.title
  let due := jsOrElse task.due "Not set"
  let notes := jsShowOptString task.notes
  let id := jsShowOptString task.id
  let status := jsShowOptString task.status
  let selfLink := jsShowOptString task.selfLink
  let hidden := jsShowOptBool task.hidden
  let parent := jsShowOptString task.parent
  let deleted := jsShowOptBool task.deleted
  let completed := jsShowOptString task.completed
  let position := jsShowOptString task.position
  let updated := jsShowOptString task.updated
  let etag := jsShowOptString task.etag
  let links := jsShowOptList task.links
  let kind := jsShowOptString task.kind
  s!"{title}\n (Due: {due}) - Notes: {notes} - ID: {id} - Status: {status} - URI: {selfLink} - Hidden: {hidden} - Parent: {parent} - Deleted?: {deleted} - Completed Date: {completed} - Position: {position} - Updated Date: {updated} - ETag: {etag} - Links: {links} - Kind: {kind}\x7d"

/-- Model of helpers `formatTaskList`: newline-joined task renderings. -/
def formatTaskList (tasks : List Task) : String :=
  String.intercalate "\n" (tasks.map formatTask)

/-- Machine-readable pagination metadata attached to every paginated
response (helpers, `PaginationMetadata`). -/
structure PaginationMetadata where
  pageSize : Nat
  total : Nat
  offset : Nat
  returned : Nat
  nextCursor : Option String
  deriving DecidableEq, Repr

/-- A paginated MCP tool response, as text plus structured metadata. -/
structure PaginatedResponse where
  text : String
  pagination : PaginationMetadata
  deriving DecidableEq, Repr

/-- Model of helpers `paginatedTextResponse`.  The MCP envelope
(`content: [...]`) and the `JSON.stringify` serialisation of the metadata
object appended after the text are an injective presentation of this pair
and are modelled by the pair itself. -/
def paginatedTextResponse (text : String) (pagination : PaginationMetadata) : PaginatedResponse :=
  { text := text, pagination := pagination }

/-- Filter arguments accepted by the list and search tools (helpers,
`TaskListFilterArgs`). -/
structure TaskListFilterArgs where
  taskListId : Option String := none
  showCompleted : Option Bool := none
  showHidden : Option Bool := none
  showDeleted : Option Bool := none
  showAssigned : Option Bool := none
  completedMin : Option String := none
  completedMax : Option String := none
  dueMin : Option String := none
  dueMax : Option String := none
  updatedMin : Option String := none
  deriving DecidableEq, Repr

/-- Parameter record passed to the tasks.list backend call (the record
built by helpers `buildListParams`). -/
structure ListParams where
  maxResults : Nat
  showCompleted : Option Bool := none
  showHidden : Option Bool := none
  showDeleted : Option Bool := none
  showAssigned : Option Bool := none
  completedMin : Option String := none
  completedMax : Option String := none
  dueMin : Option String := none
  dueMax : Option String := none
  updatedMin : Option String := none
  deriving DecidableEq, Repr

/-- A string filter is forwarded only when truthy (`if (filters.x)`). -/
def jsStrParam (o : Option String) : Option String :=
  match o with
  | some s => if s.isEmpty then none else some s
  | none => none

/-- Model of helpers `buildListParams`: booleans are forwarded whenever
explicitly set (`!== undefined`), timestamp strings only when truthy. -/
def buildListParams (filters : TaskListFilterArgs) : ListParams :=
  { maxResults := MAX_TASK_RESULTS
    showCompleted := filters.showCompleted
    showHidden := filters.showHidden
    showDeleted := filters.showDeleted
    showAssigned := filters.showAssigned
    completedMin := jsStrParam filters.completedMin
    completedMax := jsStrParam filters.completedMax
    dueMin := jsStrParam filters.dueMin
    dueMax := jsStrParam filters.dueMax
    updatedMin := jsStrParam filters.updatedMin }

/-- A task list record (`Schema$TaskList`) as read by the service layer. -/
structure TaskList where
  id : Option String := none
  title : Option String := none
  updated : Option String := none
  deriving DecidableEq, Repr

/-- One native backend page response: either the items of that page or a
failed page request.  The advancing native `pageToken` chain is
represented by the list order: the fetch loop consumes responses in order
and stops after the last one (the backend reporting no `nextPageToken`). -/
abbrev PageResp (α : Type) := Except String (List α)

/-- The backend (Google Tasks API client) as the fixed sequences of page
responses it would return: the registry (`tasklists.list`) chain and, per
task list id and parameter record, the `tasks.list` chain. -/
structure Backend where
  registryPages : List (PageResp TaskList)
  taskPages : String → ListParams → List (PageResp Task)

/-- Drains one native pagination chain: concatenates page items in backend
order while requests succeed; the first failing page request fails the
whole fetch (the awaited rejection is rethrown out of the do/while loop,
discarding items already accumulated). -/
def drainPages {α : Type} : List (PageResp α) → Except String (List α)
  | [] => Except.ok []
  | p :: rest =>
    match p with
    | Except.error e => Except.error e
    | Except.ok items =>
      match drainPages rest with
      | Except.error e => Except.error e
      | Except.ok more => Except.ok (items ++ more)

namespace TaskService

/-- Model of `TaskService.fetchAllTaskLists`: exhaustively drain the
registry pagination. -/
def fetchAllTaskLists (b : Backend) : Except String (List TaskList) :=
  drainPages b.registryPages

/-- Model of `TaskService.fetchAllTasksFromTaskList`: exhaustively drain
one task list across backend pages, with the given list parameters. -/
def fetchAllTasksFromTaskList (b : Backend) (taskListId : String)
    (listParams : ListParams) : Except String (List Task) :=
  drainPages (b.taskPages taskListId listParams)

/-- Model of `TaskService.fetchTasks`: with a (truthy) `taskListId`,
delegate to the exhaustive fetch of that one list; otherwise fetch the
registry, fan out over every task list with a truthy id
(`Promise.allSettled`), and concatenate the fulfilled results in registry
order, a rejected fetch contributing nothing (only a log line). -/
def fetchTasks (b : Backend) (filters : TaskListFilterArgs) : Except String (List Task) :=
  let listParams := buildListParams filters
  if jsTruthy filters.taskListId then
    fetchAllTasksFromTaskList b (filters.taskListId.getD "") listParams
  else
    match fetchAllTaskLists b with
    | Except.error e => Except.error e
    | Except.ok taskLists =>
      let results := (taskLists.filter (fun tl => jsTruthy tl.id)).map
        (fun tl => fetchAllTasksFromTaskList b (tl.id.getD "") listParams)
      Except.ok (results.foldl
        (fun allTasks result =>
          match result with
          | Except.ok value => allTasks ++ value
          | Except.error _ => allTasks) [])

/-- Model of `TaskService.list`: fetch, paginate, and render header, body
and cursor trailer plus the structured pagination metadata. -/
def list (b : Backend) (filters : TaskListFilterArgs) (cursor : Option String) :
    Except String PaginatedResponse :=
  match fetchTasks b filters with
  | Except.error e => Except.error e
  | Except.ok allTasks =>
    match paginateTasks allTasks cursor with
    | Except.error e => Except.error e
    | Except.ok r =>
      let total := r.total
      let offset := r.offset
      let start := offset + 1
      let shown := offset + r.page.length
      let header :=
        if total = 0 then "Found 0 tasks."
        else s!"Found {total} tasks. Showing {start}-{shown} of {total}."
      let body := if 0 < r.page.length then formatTaskList r.page else "No tasks on this page."
      let cursorLine :=
        match r.nextCursor with
        | some s => if s.isEmpty then "" else "\nNext cursor: " ++ s
        | none => ""
      Except.ok (paginatedTextResponse (header ++ "\n" ++ body ++ cursorLine)
        { pageSize := TASK_PAGE_SIZE
          total := total
          offset := offset
          returned := r.page.length
          nextCursor := r.nextCursor })

/-- Decides whether `needle` occurs as a contiguous substring of the
character list (model of JS `String.prototype.includes`). -/
def containsSub (needle : List Char) : List Char → Bool
  | [] => needle.isEmpty
  | c :: rest => needle.isPrefixOf (c :: rest) || containsSub needle rest

/-- Lower-casing of a string, character by character (the model of JS
`toLowerCase`; ASCII case folding). -/
def jsToLower (s : String) : String := ⟨s.data.map Char.toLower⟩

/-- One disjunct of the search predicate:
`field?.toLowerCase().includes(query.toLowerCase())`, where a missing
field is falsy and never matches. -/
def lowerIncludes (field : Option String) (query : String) : Bool :=
  match field with
  | none => false
  | some s => containsSub (jsToLower query).toList (jsToLower s).toList

/-- The client-side search predicate of `TaskService.search`: the title or
the notes contain the query case-insensitively. -/
def taskMatches (query : String) (task : Task) : Bool :=
  lowerIncludes task.title query || lowerIncludes task.notes query

/-- Model of `TaskService.search`: fetch, narrow by `taskMatches`, then
paginate the filtered items and render. -/
def search (b : Backend) (query : String) (filters : TaskListFilterArgs)
    (cursor : Option String) : Except String PaginatedResponse :=
  match fetchTasks b filters with
  | Except.error e => Except.error e
  | Except.ok allTasks =>
    let filteredItems := allTasks.filter (fun task => taskMatches query task)
    match paginateTasks filteredItems cursor with
    | Except.error e => Except.error e
    | Except.ok r =>
      let total := r.total
      let offset := r.offset
      let start := offset + 1
      let shown := offset + r.page.length
      let header :=
        if total = 0 then s!"Found 0 tasks matching \"{query}\"."
        else s!"Found {total} tasks matching \"{query}\". Showing {start}-{shown} of {total}."
      let body := if 0 < r.page.length then formatTaskList r.page else "No tasks on this page."
      let cursorLine :=
        match r.nextCursor with
        | some s => if s.isEmpty then "" else "\nNext cursor: " ++ s
        | none => ""
      Except.ok (paginatedTextResponse (header ++ "\n" ++ body ++ cursorLine)
        { pageSize := TASK_PAGE_SIZE
          total := total
          offset := offset
          returned := r.page.length
          nextCursor := r.nextCursor })

end TaskService

/-- Model of the registered `list` tool handler in the server entry point:
the input schema declares an optional `cursor` argument and the handler
destructures it, but the body calls `taskService.list(filters)` without
forwarding it, so the service always paginates from offset 0. -/
def listToolHandler (b : Backend) (filters : TaskListFilterArgs)
    (cursor : Option String) : Except String PaginatedResponse :=
  TaskService.list b filters none

/-- Model of the registered `search` tool handler in the server entry
point: the input schema declares no cursor argument at all, and the
handler calls `taskService.search(query, filters)` with no cursor. -/
def searchToolHandler (b : Backend) (query : String)
    (filters : TaskListFilterArgs) : Except String PaginatedResponse :=
  TaskService.search b query filters none

/-! Test fixtures and the pagination-walk harness (definitions used by the
theorems below). -/

deriving instance DecidableEq for Except

/-- A task whose title is the decimal rendering of its index. -/
def mkTask (i : Nat) : Task := { title := some (Nat.repr i) }

/-- The list of `n` distinct tasks `mkTask 0, …, mkTask (n-1)`. -/
def tasksN (n : Nat) : List Task := (List.range n).map mkTask

/-- Filter arguments with every field absent. -/
def noFilters : TaskListFilterArgs := {}

/-- A backend with one registry page holding one task list (`list-1`) and
one task page holding 45 tasks. -/
def b45 : Backend :=
  { registryPages := [Except.ok [{ id := some "list-1" }]]
    taskPages := fun i _ => if i = "list-1" then [Except.ok (tasksN 45)] else [] }

/-- A backend with three task lists where fetching the middle one fails. -/
def bABC : Backend :=
  { registryPages := [Except.ok [{ id := some "A" }, { id := some "B" }, { id := some "C" }]]
    taskPages := fun i _ =>
      if i = "A" then [Except.ok [mkTask 0, mkTask 1]]
      else if i = "B" then [Except.error "backend degraded"]
      else if i = "C" then [Except.ok [mkTask 2]]
      else [] }

/-- A backend with three task lists that all fail to fetch. -/
def bAllFail : Backend :=
  { registryPages := [Except.ok [{ id := some "A" }, { id := some "B" }, { id := some "C" }]]
    taskPages := fun _ _ => [Except.error "backend down"] }

/-- A backend whose single task list `L` serves its tasks across two
native pages, plus a variant whose second page request fails. -/
def bTwoPages : Backend :=
  { registryPages := [Except.ok [{ id := some "L" }]]
    taskPages := fun i _ =>
      if i = "L" then [Except.ok [mkTask 0, mkTask 1], Except.ok [mkTask 2]] else [] }

/-- A backend whose task list `L` fails on its second page request. -/
def bPageError : Backend :=
  { registryPages := [Except.ok [{ id := some "L" }]]
    taskPages := fun i _ =>
      if i = "L" then [Except.ok [mkTask 0, mkTask 1], Except.error "page 2 failed"] else [] }

/-- A backend with no task lists at all. -/
def bEmpty : Backend := { registryPages := [], taskPages := fun _ _ => [] }

/-- Twenty-five tasks of which exactly three mention milk in their title
or notes, case-insensitively. -/
def milkTasks : List Task :=
  tasksN 22 ++
    [{ title := some "Buy Milk" }, { notes := some "urgent milk run" },
     { title := some "MILKSHAKE", notes := some "none" }]

/-- A backend serving `milkTasks` from a single task list. -/
def bMilk : Backend :=
  { registryPages := [Except.ok [{ id := some "list-1" }]]
    taskPages := fun i _ => if i = "list-1" then [Except.ok milkTasks] else [] }

/-- Iterates the pager over a fixed item list: start from the given
cursor, and feed each returned `nextCursor` back in, collecting the pages
visited and the cursor strings fed; `none` when the fuel runs out or a
call fails.  A `some` result means the final call returned no next
cursor. -/
def pageWalk (items : List Task) : Nat → Option String → Option (List (List Task) × List String)
  | 0, _ => none
  | fuel + 1, cursor =>
    match paginateTasks items cursor with
    | Except.error _ => none
    | Except.ok r =>
      match r.nextCursor with
      | none => some ([r.page], [])
      | some s =>
        match pageWalk items fuel (some s) with
        | none => none
        | some (pgs, cs) => some (r.page :: pgs, s :: cs)

/-! Helper lemmas.  First: the decimal rendering of a natural number
(`Nat.repr`, the model of JS `String(n)`) parses back to the same number
through `jsParseInt`, so a returned `nextCursor` decodes to the offset it
was built from. -/

theorem decValue_append_singleton (xs : List Char) (c : Char) :
    decValue (xs ++ [c]) = 10 * decValue xs + digitVal c := by
  simp only [decValue, List.foldl_append, List.foldl_cons, List.foldl_nil]
  omega

theorem digitChar_spec (m : Nat) (h : m < 10) :
    (Nat.digitChar m).isDigit = true ∧ digitVal (Nat.digitChar m) = m := by
  interval_cases m <;> exact ⟨by decide, by decide⟩

theorem toDigitsCore_spec :
    ∀ (fuel n : Nat) (ds : List Char), 0 < fuel → n < 10 ^ fuel →
      ∃ cs, Nat.toDigitsCore 10 fuel n ds = cs ++ ds ∧ cs ≠ [] ∧
        (∀ c ∈ cs, c.isDigit = true) ∧ decValue cs = n := by
  intro fuel
  induction fuel with
  | zero => intro n ds h _; omega
  | succ fuel ih =>
    intro n ds _ hlt
    by_cases hdiv : n / 10 = 0
    · have hn : n < 10 := (Nat.div_eq_zero_iff (by norm_num)).mp hdiv
      have hmod : n % 10 = n := Nat.mod_eq_of_lt hn
      obtain ⟨hd1, hd2⟩ := digitChar_spec (n % 10) (Nat.mod_lt n (by norm_num))
      refine ⟨[Nat.digitChar (n % 10)], ?_, by simp, ?_, ?_⟩
      · simp [Nat.toDigitsCore, hdiv]
      · intro c hc
        simp only [List.mem_singleton] at hc
        simpa [hc] using hd1
      · simpa [decValue, digitVal, hmod] using hd2
    · have hfuel : 0 < fuel := by
        rcases Nat.eq_zero_or_pos fuel with h0 | h0
        · subst h0
          have : n < 10 := by simpa using hlt
          exact absurd (Nat.div_eq_of_lt this) hdiv
        · exact h0
      have hlt2 : n / 10 < 10 ^ fuel := by
        rw [Nat.div_lt_iff_lt_mul (by norm_num : (0 : Nat) < 10)]
        calc n < 10 ^ (fuel + 1) := hlt
        _ = 10 ^ fuel * 10 := by rw [pow_succ]
      obtain ⟨cs, heq, hne, hdig, hval⟩ :=
        ih (n / 10) (Nat.digitChar (n % 10) :: ds) hfuel hlt2
      obtain ⟨hd1, hd2⟩ := digitChar_spec (n % 10) (Nat.mod_lt n (by norm_num))
      refine ⟨cs ++ [Nat.digitChar (n % 10)], ?_, by simp, ?_, ?_⟩
      · have hstep : Nat.toDigitsCore 10 (fuel + 1) n ds =
            Nat.toDigitsCore 10 fuel (n / 10) (Nat.digitChar (n % 10) :: ds) := by
          simp [Nat.toDigitsCore, hdiv]
        rw [hstep, heq, List.append_assoc, List.singleton_append]
      · intro c hc
        rcases List.mem_append.mp hc with hc | hc
        · exact hdig c hc
        · simp only [List.mem_singleton] at hc
          simpa [hc] using hd1
      · rw [decValue_append_singleton, hval, hd2]
        omega

theorem repr_toList_spec (n : Nat) :
    (Nat.repr n).toList ≠ [] ∧ (∀ c ∈ (Nat.repr n).toList, c.isDigit = true) ∧
      decValue ((Nat.repr n).toList) = n := by
  have hbound : n < 10 ^ (n + 1) :=
    lt_of_lt_of_le (Nat.lt_pow_self (by norm_num) n)
      (Nat.pow_le_pow_right (by norm_num) (Nat.le_succ n))
  obtain ⟨cs, heq, hne, hdig, hval⟩ :=
    toDigitsCore_spec (n + 1) n [] (Nat.succ_pos n) hbound
  have hlist : (Nat.repr n).toList = cs := by
    show (Nat.toDigits 10 n).asString.toList = cs
    rw [show Nat.toDigits 10 n = Nat.toDigitsCore 10 (n + 1) n [] from rfl, heq,
      List.append_nil]
    exact rfl
  rw [hlist]
  exact ⟨hne, hdig, hval⟩

theorem digit_not_special (c : Char) (h : c.isDigit = true) :
    jsIsWhitespace c = false ∧ c ≠ '-' ∧ c ≠ '+' := by
  refine ⟨?_, ?_, ?_⟩
  · by_contra hw
    rw [Bool.not_eq_false] at hw
    simp only [jsIsWhitespace, Bool.or_eq_true, decide_eq_true_eq] at hw
    rcases hw with ((((rfl | rfl) | rfl) | rfl) | rfl) | rfl <;> exact absurd h (by decide)
  · rintro rfl; exact absurd h (by decide)
  · rintro rfl; exact absurd h (by decide)

theorem jsParseInt_repr (n : Nat) : jsParseInt (Nat.repr n) = some (Int.ofNat n) := by
  obtain ⟨hne, hdig, hval⟩ := repr_toList_spec n
  obtain ⟨c, t, hl⟩ := List.exists_cons_of_ne_nil hne
  have hcdig : c.isDigit = true := hdig c (by rw [hl]; exact List.mem_cons_self c t)
  obtain ⟨hws, hcm, hcp⟩ := digit_not_special c hcdig
  have hdrop : (Nat.repr n).toList.dropWhile jsIsWhitespace = (Nat.repr n).toList := by
    rw [hl, List.dropWhile_cons, hws]
    simp
  have hhead : (Nat.repr n).toList.head? = some c := by rw [hl]; rfl
  have htake : (Nat.repr n).toList.takeWhile Char.isDigit = (Nat.repr n).toList :=
    List.takeWhile_eq_self_iff.mpr hdig
  have hnotempty : (Nat.repr n).toList.isEmpty = false := by
    rw [hl]; rfl
  unfold jsParseInt
  simp only [String.toList] at hdrop hhead htake hnotempty hval
  simp [hdrop, hhead, hcm, hcp, htake, hnotempty, hval]

theorem parseCursor_repr (n : Nat) : parseCursor (some (Nat.repr n)) = Except.ok n := by
  have hne : (Nat.repr n).toList ≠ [] := (repr_toList_spec n).1
  have hempty : (Nat.repr n).isEmpty = false := by
    rw [Bool.eq_false_iff]
    intro h
    rw [String.isEmpty_iff] at h
    rw [h] at hne
    exact hne rfl
  have hnonneg : ¬ (Int.ofNat n < 0) := not_lt.mpr (Int.ofNat_nonneg n)
  simp [parseCursor, hempty, jsParseInt_repr n, hnonneg, Int.toNat_ofNat]

/-! Pagination lemmas shared by the claims below. -/

theorem paginateTasks_of_valid (items : List Task) (cursor : Option String) (n : Nat)
    (hc : parseCursor cursor = Except.ok n) (hv : items = [] ∨ n < items.length) :
    paginateTasks items cursor = Except.ok
      { page := (items.drop n).take TASK_PAGE_SIZE
        nextCursor :=
          if n + ((items.drop n).take TASK_PAGE_SIZE).length < items.length
          then some (Nat.repr (n + ((items.drop n).take TASK_PAGE_SIZE).length))
          else none
        offset := n
        total := items.length } := by
  have hguard : ¬ (0 < items.length ∧ items.length ≤ n) := by
    rcases hv with rfl | hlt
    · simp
    · omega
  simp only [paginateTasks, hc]
  rw [if_neg hguard]

theorem paginateTasks_ok_total (items : List Task) (cursor : Option String) (r : PageResult)
    (h : paginateTasks items cursor = Except.ok r) : r.total = items.length := by
  cases hpc : parseCursor cursor with
  | error e => simp [paginateTasks, hpc] at h
  | ok n =>
    simp only [paginateTasks, hpc] at h
    by_cases hg : 0 < items.length ∧ items.length ≤ n
    · rw [if_pos hg] at h
      exact absurd h (by simp)
    · rw [if_neg hg] at h
      injection h with h
      subst h
      rfl

theorem pageWalk_covers : ∀ (fuel : Nat) (items : List Task) (cursor : Option String) (n : Nat),
    parseCursor cursor = Except.ok n → (items = [] ∨ n < items.length) →
    items.length - n + 1 ≤ fuel →
    ∃ pgs cs, pageWalk items fuel cursor = some (pgs, cs) ∧ pgs.flatten = items.drop n := by
  intro fuel
  induction fuel with
  | zero => intro items cursor n _ _ hf; omega
  | succ fuel ih =>
    intro items cursor n hc hv hf
    have hpag := paginateTasks_of_valid items cursor n hc hv
    by_cases hnext : n + ((items.drop n).take TASK_PAGE_SIZE).length < items.length
    · have hlt : n < items.length := by
        rcases hv with rfl | h
        · simp at hnext
        · exact h
      have hplen : ((items.drop n).take TASK_PAGE_SIZE).length =
          min TASK_PAGE_SIZE (items.length - n) := by
        simp [List.length_take, List.length_drop]
      have hlen1 : 1 ≤ ((items.drop n).take TASK_PAGE_SIZE).length := by
        rw [hplen]
        simp only [TASK_PAGE_SIZE]
        omega
      obtain ⟨pgs, cs, hw, hj⟩ := ih items
        (some (Nat.repr (n + ((items.drop n).take TASK_PAGE_SIZE).length)))
        (n + ((items.drop n).take TASK_PAGE_SIZE).length)
        (parseCursor_repr _) (Or.inr hnext) (by omega)
      refine ⟨(items.drop n).take TASK_PAGE_SIZE :: pgs,
        Nat.repr (n + ((items.drop n).take TASK_PAGE_SIZE).length) :: cs, ?_, ?_⟩
      · show pageWalk items (fuel + 1) cursor = _
        rw [pageWalk, hpag]
        simp only [if_pos hnext, hw]
      · have hdd : items.drop (n + ((items.drop n).take TASK_PAGE_SIZE).length) =
            (items.drop n).drop (((items.drop n).take TASK_PAGE_SIZE).length) := by
          rw [List.drop_drop]
        rw [List.flatten_cons, hj, hdd]
        by_cases h20 : (items.drop n).length ≤ TASK_PAGE_SIZE
        · rw [List.take_of_length_le h20, List.drop_length, List.append_nil]
        · have hlen20 : ((items.drop n).take TASK_PAGE_SIZE).length = TASK_PAGE_SIZE := by
            rw [List.length_take]
            omega
          rw [hlen20, List.take_append_drop]
    · refine ⟨[(items.drop n).take TASK_PAGE_SIZE], [], ?_, ?_⟩
      · show pageWalk items (fuel + 1) cursor = _
        rw [pageWalk, hpag]
        simp only [if_neg hnext]
      · have hplen : ((items.drop n).take TASK_PAGE_SIZE).length =
          min TASK_PAGE_SIZE (items.length - n) := by
          simp [List.length_take, List.length_drop]
        have hle : (items.drop n).length ≤ TASK_PAGE_SIZE := by
          rw [List.length_drop]
          simp only [TASK_PAGE_SIZE] at hplen hnext ⊢
          omega
        simp [List.take_of_length_le hle]

theorem parseCursor_error_iff (cursor : Option String) :
    parseCursor cursor = Except.error invalidCursorMessage ↔
      ∃ s, cursor = some s ∧ s.isEmpty = false ∧
        (jsParseInt s = none ∨ ∃ i, jsParseInt s = some i ∧ i < 0) := by
  cases cursor with
  | none =>
    simp [parseCursor]
  | some s =>
    constructor
    · intro h
      simp only [parseCursor] at h
      by_cases he : s.isEmpty
      · rw [if_pos he] at h
        exact absurd h (by simp)
      · refine ⟨s, rfl, Bool.eq_false_iff.mpr he, ?_⟩
        rw [if_neg he] at h
        cases hji : jsParseInt s with
        | none => exact Or.inl rfl
        | some i =>
          simp only [hji] at h
          by_cases hi : i < 0
          · exact Or.inr ⟨i, rfl, hi⟩
          · rw [if_neg hi] at h
            exact absurd h (by simp)
    · rintro ⟨s2, heq, hne, hbad⟩
      injection heq with heq
      subst heq
      simp only [parseCursor, hne, Bool.false_eq_true, if_false]
      rcases hbad with hji | ⟨i, hji, hi⟩
      · rw [hji]
      · simp only [hji]
        rw [if_pos hi]

/-- C2 (amended): `paginateTasks` raises the invalid-cursor error (with the
remediation message) exactly when either the cursor is present, non-empty,
and `parseInt` yields `NaN` or a negative value, or the item list is
non-empty and the decoded offset reaches past its last element; a
fractional cursor such as "1.5" is truncated by `parseInt` and accepted,
and an empty cursor string is treated like an absent one; when the item
list is empty an absent cursor yields offset 0 and is accepted. -/
theorem C2_invalid_cursor_characterization :
    (∀ (items : List Task) (cursor : Option String),
      paginateTasks items cursor = Except.error invalidCursorMessage ↔
        ((∃ s, cursor = some s ∧ s.isEmpty = false ∧
            (jsParseInt s = none ∨ ∃ i, jsParseInt s = some i ∧ i < 0)) ∨
         (∃ n, parseCursor cursor = Except.ok n ∧ items ≠ [] ∧ items.length ≤ n)))
    ∧ paginateTasks [] none
        = Except.ok { page := [], nextCursor := none, offset := 0, total := 0 } := by
  constructor
  · intro items cursor
    constructor
    · intro h
      cases hpc : parseCursor cursor with
      | error e =>
        have he : e = invalidCursorMessage := by
          cases cursor with
          | none => exact absurd hpc (by simp [parseCursor])
          | some s =>
            simp only [parseCursor] at hpc
            by_cases hemp : s.isEmpty
            · rw [if_pos hemp] at hpc
              exact absurd hpc (by simp)
            · rw [if_neg hemp] at hpc
              cases hji : jsParseInt s with
              | none =>
                rw [hji] at hpc
                injection hpc with hpc
                exact hpc.symm
              | some i =>
                simp only [hji] at hpc
                by_cases hi : i < 0
                · rw [if_pos hi] at hpc
                  injection hpc with hpc
                  exact hpc.symm
                · rw [if_neg hi] at hpc
                  exact absurd hpc (by simp)
        exact Or.inl ((parseCursor_error_iff cursor).mp (he ▸ hpc))
      | ok n =>
        simp only [paginateTasks, hpc] at h
        by_cases hg : 0 < items.length ∧ items.length ≤ n
        · refine Or.inr ⟨n, rfl, ?_, hg.2⟩
          intro hnil
          rw [hnil] at hg
          simp at hg
        · rw [if_neg hg] at h
          exact absurd h (by simp)
    · intro h
      rcases h with ⟨s, rfl, hne, hbad⟩ | ⟨n, hpc, hnil, hle⟩
      · have hpe : parseCursor (some s) = Except.error invalidCursorMessage :=
          (parseCursor_error_iff (some s)).mpr ⟨s, rfl, hne, hbad⟩
        simp [paginateTasks, hpe]
      · have hg : 0 < items.length ∧ items.length ≤ n :=
          ⟨List.length_pos.mpr hnil, hle⟩
        simp [paginateTasks, hpc, hg]
  · decide

/-- C2 counterexample: the fractional cursor "1.5" does not fail — it is
truncated by `parseInt` to offset 1 and the call succeeds, contradicting
the claim that fractional cursor strings raise the invalid-cursor
error. -/
theorem C2_counterexample :
    parseCursor (some "1.5") = Except.ok 1 ∧
    paginateTasks (tasksN 3) (some "1.5") =
      Except.ok { page := [mkTask 1, mkTask 2], nextCursor := none, offset := 1, total := 3 } :=
  ⟨by decide, by decide⟩

/-- C3: for every item list and every cursor decoding to a valid offset,
`paginateTasks` returns the page `items[offset .. offset+20)` (page size
fixed at `TASK_PAGE_SIZE = 20`), total `items.length`, and a next cursor
that is the decimal string of `offset + page.length` when that is below
`items.length`, and `none` otherwise. -/
theorem C3_page_extraction (items : List Task) (cursor : Option String) (n : Nat)
    (hc : parseCursor cursor = Except.ok n) (hv : items = [] ∨ n < items.length) :
    paginateTasks items cursor = Except.ok
      { page := (items.drop n).take TASK_PAGE_SIZE
        nextCursor :=
          if n + ((items.drop n).take TASK_PAGE_SIZE).length < items.length
          then some (Nat.repr (n + ((items.drop n).take TASK_PAGE_SIZE).length))
          else none
        offset := n
        total := items.length } :=
  paginateTasks_of_valid items cursor n hc hv

/-- C3 witness: the theorem applied to 45 tasks and cursor "20". -/
theorem C3_page_extraction_witness :
    parseCursor (some "20") = Except.ok 20 ∧
    (tasksN 45 = [] ∨ 20 < (tasksN 45).length) ∧
    paginateTasks (tasksN 45) (some "20") = Except.ok
      { page := ((tasksN 45).drop 20).take TASK_PAGE_SIZE
        nextCursor :=
          if 20 + (((tasksN 45).drop 20).take TASK_PAGE_SIZE).length < (tasksN 45).length
          then some (Nat.repr (20 + (((tasksN 45).drop 20).take TASK_PAGE_SIZE).length))
          else none
        offset := 20
        total := (tasksN 45).length } :=
  ⟨by decide, Or.inr (by decide),
    C3_page_extraction (tasksN 45) (some "20") 20 (by decide) (Or.inr (by decide))⟩

/-- C4: iterating the pager from no cursor and feeding each returned next
cursor back in visits every item exactly once (the concatenation of the
visited pages is the item list) and terminates with a null next cursor;
concretely, 45 items yield pages of 20, 20 and 5 items with cursors "20"
and "40". -/
theorem C4_walk_visits_every_item_once :
    (∀ items : List Task, ∃ pgs cs,
        pageWalk items (items.length + 1) none = some (pgs, cs) ∧ pgs.flatten = items)
    ∧ pageWalk (tasksN 45) 46 none =
        some ([(tasksN 45).take 20, ((tasksN 45).drop 20).take 20, (tasksN 45).drop 40],
          ["20", "40"])
    ∧ ((tasksN 45).take 20).length = 20
    ∧ (((tasksN 45).drop 20).take 20).length = 20
    ∧ ((tasksN 45).drop 40).length = 5 := by
  refine ⟨?_, by decide, by decide, by decide, by decide⟩
  intro items
  have hv : items = [] ∨ 0 < items.length := by
    by_cases h : items = []
    · exact Or.inl h
    · exact Or.inr (List.length_pos.mpr h)
  obtain ⟨pgs, cs, hw, hj⟩ := pageWalk_covers (items.length + 1) items none 0 rfl hv (by omega)
  exact ⟨pgs, cs, hw, by simpa using hj⟩

theorem foldl_settled (rs : List (Except String (List Task))) (init : List Task) :
    rs.foldl
        (fun allTasks result =>
          match result with
          | Except.ok value => allTasks ++ value
          | Except.error _ => allTasks) init
      = init ++ (rs.map (fun r =>
          match r with
          | Except.ok value => value
          | Except.error _ => [])).flatten := by
  induction rs generalizing init with
  | nil => simp
  | cons r rs ih =>
    cases r with
    | ok v => simp [ih, List.append_assoc]
    | error e => simp [ih]

/-- C5: with no task list id, each collection fetch is evaluated
independently: the aggregate succeeds with the concatenation, in registry
order, of the items of each succeeding collection (registry records with a
falsy id are ignored), a failing collection contributing nothing; and when
every collection fails the result is the empty list, still a success. -/
theorem C5_fanout_partial_failure (b : Backend) (filters : TaskListFilterArgs)
    (tls : List TaskList)
    (hid : jsTruthy filters.taskListId = false)
    (hreg : TaskService.fetchAllTaskLists b = Except.ok tls) :
    TaskService.fetchTasks b filters = Except.ok
      (((tls.filter (fun tl => jsTruthy tl.id)).map
        (fun tl =>
          match TaskService.fetchAllTasksFromTaskList b (tl.id.getD "")
              (buildListParams filters) with
          | Except.ok items => items
          | Except.error _ => [])).flatten)
    ∧ ((∀ tl ∈ tls.filter (fun tl => jsTruthy tl.id),
          ∃ e, TaskService.fetchAllTasksFromTaskList b (tl.id.getD "")
            (buildListParams filters) = Except.error e) →
        TaskService.fetchTasks b filters = Except.ok []) := by
  have h1 : TaskService.fetchTasks b filters = Except.ok
      (((tls.filter (fun tl => jsTruthy tl.id)).map
        (fun tl =>
          match TaskService.fetchAllTasksFromTaskList b (tl.id.getD "")
              (buildListParams filters) with
          | Except.ok items => items
          | Except.error _ => [])).flatten) := by
    simp only [TaskService.fetchTasks, hid, Bool.false_eq_true, if_false, hreg]
    rw [foldl_settled, List.nil_append, List.map_map]
    rfl
  refine ⟨h1, ?_⟩
  intro hall
  rw [h1]
  have hnil : ∀ l ∈ (tls.filter (fun tl => jsTruthy tl.id)).map
      (fun tl =>
        match TaskService.fetchAllTasksFromTaskList b (tl.id.getD "")
            (buildListParams filters) with
        | Except.ok items => items
        | Except.error _ => []), l = [] := by
    intro l hl
    obtain ⟨tl, htl, rfl⟩ := List.mem_map.mp hl
    obtain ⟨e, he⟩ := hall tl htl
    rw [he]
  rw [List.flatten_eq_nil_iff.mpr hnil]

/-- C5 witness: a three-collection backend where B fails yields exactly the
items of A and C in registry order; a backend where all three fail yields
the empty list with no error. -/
theorem C5_fanout_partial_failure_witness :
    jsTruthy noFilters.taskListId = false ∧
    TaskService.fetchTasks bABC noFilters = Except.ok [mkTask 0, mkTask 1, mkTask 2] ∧
    TaskService.fetchTasks bAllFail noFilters = Except.ok [] := by
  refine ⟨by decide, ?_, ?_⟩
  · have h := (C5_fanout_partial_failure bABC noFilters
      [{ id := some "A" }, { id := some "B" }, { id := some "C" }] (by decide) (by decide)).1
    exact h.trans (by decide)
  · refine (C5_fanout_partial_failure bAllFail noFilters
      [{ id := some "A" }, { id := some "B" }, { id := some "C" }] (by decide) (by decide)).2 ?_
    intro tl htl
    refine ⟨"backend down", ?_⟩
    fin_cases htl <;> rfl

/-- C6: with an explicit (truthy) task list id the aggregator delegates
directly to the exhaustive fetch of that single collection, and a failure
of that fetch propagates unchanged to the caller. -/
theorem C6_single_collection_delegation (b : Backend) (filters : TaskListFilterArgs)
    (tlid : String) (hid : filters.taskListId = some tlid) (hne : tlid.isEmpty = false) :
    TaskService.fetchTasks b filters
      = TaskService.fetchAllTasksFromTaskList b tlid (buildListParams filters)
    ∧ (∀ e, TaskService.fetchAllTasksFromTaskList b tlid (buildListParams filters)
          = Except.error e →
        TaskService.fetchTasks b filters = Except.error e) := by
  have htr : jsTruthy (some tlid) = true := by
    simp [jsTruthy, hne]
  have h1 : TaskService.fetchTasks b filters
      = TaskService.fetchAllTasksFromTaskList b tlid (buildListParams filters) := by
    simp only [TaskService.fetchTasks, hid, htr, if_true, Option.getD_some]
  exact ⟨h1, fun e he => by rw [h1, he]⟩

/-- C6 witness: a single-collection query against a backend whose second
page request fails surfaces that failure to the caller. -/
theorem C6_single_collection_delegation_witness :
    ({ taskListId := some "L" } : TaskListFilterArgs).taskListId = some "L" ∧
    TaskService.fetchTasks bPageError { taskListId := some "L" }
      = TaskService.fetchAllTasksFromTaskList bPageError "L"
        (buildListParams { taskListId := some "L" }) ∧
    TaskService.fetchTasks bPageError { taskListId := some "L" }
      = Except.error "page 2 failed" := by
  have h := C6_single_collection_delegation bPageError { taskListId := some "L" } "L" rfl
    (by decide)
  exact ⟨rfl, h.1, h.2 "page 2 failed" (by decide)⟩

theorem drainPages_ok_map (pss : List (List Task)) :
    drainPages (pss.map Except.ok) = Except.ok pss.flatten := by
  induction pss with
  | nil => rfl
  | cons ps pss ih => simp [drainPages, ih]

theorem drainPages_error_mem (pages : List (PageResp Task)) (e : String)
    (he : Except.error e ∈ pages) : ∃ e2, drainPages pages = Except.error e2 := by
  induction pages with
  | nil => simp at he
  | cons p rest ih =>
    cases p with
    | error e0 => exact ⟨e0, rfl⟩
    | ok items =>
      have he2 : Except.error e ∈ rest := by
        rcases List.mem_cons.mp he with h | h
        · exact absurd h (by simp)
        · exact h
      obtain ⟨e2, h2⟩ := ih he2
      exact ⟨e2, by simp [drainPages, h2]⟩

/-- C7: the exhaustive fetcher concatenates the items of every native
backend page in backend order when all page requests succeed (no cap), and
fails the whole fetch as soon as any page request fails. -/
theorem C7_exhaustive_fetch (b : Backend) (tlid : String) (p : ListParams) :
    (∀ pss : List (List Task), b.taskPages tlid p = pss.map Except.ok →
        TaskService.fetchAllTasksFromTaskList b tlid p = Except.ok pss.flatten)
    ∧ (∀ e, Except.error e ∈ b.taskPages tlid p →
        ∃ e2, TaskService.fetchAllTasksFromTaskList b tlid p = Except.error e2) := by
  constructor
  · intro pss h
    unfold TaskService.fetchAllTasksFromTaskList
    rw [h]
    exact drainPages_ok_map pss
  · intro e he
    unfold TaskService.fetchAllTasksFromTaskList
    exact drainPages_error_mem _ e he

/-- C7 witness: a two-page collection is fetched completely in page order;
a collection whose second page fails makes the whole fetch fail. -/
theorem C7_exhaustive_fetch_witness :
    TaskService.fetchAllTasksFromTaskList bTwoPages "L" (buildListParams noFilters)
      = Except.ok [mkTask 0, mkTask 1, mkTask 2] ∧
    ∃ e2, TaskService.fetchAllTasksFromTaskList bPageError "L" (buildListParams noFilters)
      = Except.error e2 := by
  constructor
  · have h := (C7_exhaustive_fetch bTwoPages "L" (buildListParams noFilters)).1
      [[mkTask 0, mkTask 1], [mkTask 2]] (by decide)
    exact h.trans (by decide)
  · exact (C7_exhaustive_fetch bPageError "L" (buildListParams noFilters)).2
      "page 2 failed" (by decide)

/-- C8: search narrows the merged set to the items whose title or notes
contain the query case-insensitively (either field suffices; an item with
both fields missing never matches) and only then paginates: the response
metadata is exactly the pagination of the filtered set, so the reported
total is the number of matching items. -/
theorem C8_search_filters_before_paging (b : Backend) (q : String)
    (filters : TaskListFilterArgs) (cursor : Option String) (ts : List Task)
    (hf : TaskService.fetchTasks b filters = Except.ok ts) :
    ((TaskService.search b q filters cursor).map (fun r => r.pagination))
      = ((paginateTasks (ts.filter (fun t => TaskService.taskMatches q t)) cursor).map
          (fun pr =>
            { pageSize := TASK_PAGE_SIZE, total := pr.total, offset := pr.offset,
              returned := pr.page.length, nextCursor := pr.nextCursor : PaginationMetadata }))
    ∧ (∀ pr, paginateTasks (ts.filter (fun t => TaskService.taskMatches q t)) cursor
          = Except.ok pr →
        pr.total = (ts.filter (fun t => TaskService.taskMatches q t)).length)
    ∧ (∀ t : Task, t.title = none → t.notes = none →
        TaskService.taskMatches q t = false) := by
  refine ⟨?_, ?_, ?_⟩
  · simp only [TaskService.search, hf]
    cases hp : paginateTasks (ts.filter (fun t => TaskService.taskMatches q t)) cursor with
    | error e => rfl
    | ok r => rfl
  · exact fun pr h => paginateTasks_ok_total _ _ _ h
  · intro t h1 h2
    simp [TaskService.taskMatches, TaskService.lowerIncludes, h1, h2]

/-- C8 witness: 25 items of which 3 match "milk" give total 3 and all
three matches in one page with no next cursor. -/
theorem C8_search_filters_before_paging_witness :
    ((TaskService.search bMilk "milk" noFilters none).map (fun r => r.pagination))
      = Except.ok
          { pageSize := TASK_PAGE_SIZE
            total := 3
            offset := 0
            returned := 3
            nextCursor := none } ∧
    milkTasks.length = 25 ∧
    (milkTasks.filter (fun t => TaskService.taskMatches "milk" t)).length = 3 := by
  refine ⟨?_, by decide, by decide⟩
  have h := (C8_search_filters_before_paging bMilk "milk" noFilters none milkTasks
    (by decide)).1
  exact h.trans (by decide)

/-- C9: the paginated read path is a deterministic function of the cursor
and the backend responses: whenever two invocations see the same merged
fetch result, the list responses (page text and next cursor included) are
identical. -/
theorem C9_deterministic_read (b1 b2 : Backend) (f1 f2 : TaskListFilterArgs)
    (cursor : Option String)
    (h : TaskService.fetchTasks b1 f1 = TaskService.fetchTasks b2 f2) :
    TaskService.list b1 f1 cursor = TaskService.list b2 f2 cursor := by
  simp only [TaskService.list, h]

/-- C9 witness: the theorem applied to two invocations against the same
unchanged backend with the same cursor. -/
theorem C9_deterministic_read_witness :
    TaskService.list b45 noFilters (some "20") = TaskService.list b45 noFilters (some "20") :=
  C9_deterministic_read b45 b45 noFilters noFilters (some "20") rfl

/-- C10: on an empty merged set `paginateTasks` accepts any cursor that
parses to a non-negative integer `n` and returns an empty page, no next
cursor, total 0, and the un-clamped offset `n`, which therefore also
appears in the response metadata; the rendered text is the zero-count
header with the placeholder body. -/
theorem C10_empty_set_lenient_cursor (cursor : Option String) (n : Nat)
    (hc : parseCursor cursor = Except.ok n) :
    paginateTasks [] cursor
      = Except.ok { page := [], nextCursor := none, offset := n, total := 0 }
    ∧ (∀ (b : Backend) (filters : TaskListFilterArgs),
        TaskService.fetchTasks b filters = Except.ok [] →
        TaskService.list b filters cursor = Except.ok
          (paginatedTextResponse "Found 0 tasks.\nNo tasks on this page."
            { pageSize := TASK_PAGE_SIZE
              total := 0
              offset := n
              returned := 0
              nextCursor := none })) := by
  have h1 : paginateTasks [] cursor
      = Except.ok { page := [], nextCursor := none, offset := n, total := 0 } := by
    have h := paginateTasks_of_valid [] cursor n hc (Or.inl rfl)
    simpa using h
  refine ⟨h1, ?_⟩
  intro b filters hb
  simp only [TaskService.list, hb, h1]
  rfl

/-- C10 witness: cursor "7" on an empty backend is accepted and reported
back as offset 7 with total 0. -/
theorem C10_empty_set_lenient_cursor_witness :
    parseCursor (some "7") = Except.ok 7 ∧
    paginateTasks [] (some "7")
      = Except.ok { page := [], nextCursor := none, offset := 7, total := 0 } ∧
    TaskService.list bEmpty noFilters (some "7") = Except.ok
      (paginatedTextResponse "Found 0 tasks.\nNo tasks on this page."
        { pageSize := TASK_PAGE_SIZE
          total := 0
          offset := 7
          returned := 0
          nextCursor := none }) := by
  have h := C10_empty_set_lenient_cursor (some "7") 7 (by decide)
  exact ⟨by decide, h.1, h.2 bEmpty noFilters (by decide)⟩

/-- C1: evaluation at the failing input.  The registered list tool drops
the cursor its schema declares: invoked with cursor "20" against a 45-task
backend it behaves as a cursorless call and returns the offset-0 page,
while the cursor-taking service operation the claim describes returns the
offset-20 page; the registered search tool forwards no cursor either (its
schema does not declare one). -/
theorem C1_list_tool_drops_cursor :
    listToolHandler b45 noFilters (some "20") = TaskService.list b45 noFilters none
    ∧ ((listToolHandler b45 noFilters (some "20")).map (fun r => r.pagination.offset))
        = Except.ok 0
    ∧ ((TaskService.list b45 noFilters (some "20")).map (fun r => r.pagination.offset))
        = Except.ok 20
    ∧ (∀ (b : Backend) (q : String) (f : TaskListFilterArgs),
        searchToolHandler b q f = TaskService.search b q f none) :=
  ⟨rfl, by decide, by decide, fun _ _ _ => rfl⟩

end GTasks
